import Mathlib

/-!
Verification of the generative-art core of the `genuary-2026` repository.

Each Python generator is shallowly embedded: floating-point scalars become
rationals (where only field arithmetic occurs) or reals (where square roots
occur), numpy arrays become lists, and the per-pixel compositing loop of the
boolean-algebra sun becomes an explicit fold over the list of suns.
-/

namespace Genuary

/-! ## Poses (src/prompt2/animate_v2.py and animate_v3.py)

A pose holds a position `(x, y)` and squash/stretch scales `(sx, sy)`,
mirroring the `{"x": ..., "y": ..., "sx": ..., "sy": ...}` dictionaries. -/

structure Pose where
  x : ℚ
  y : ℚ
  sx : ℚ
  sy : ℚ
deriving DecidableEq, Repr

/-- `_ease_in_out` from animate_v2.py: smoothstep easing `t * t * (3 - 2 * t)`. -/
def ease_in_out (t : ℚ) : ℚ := t * t * (3 - 2 * t)

/-- The inner loop of `_tween_poses`: for `step in range(1, steps_between + 1)`,
interpolate every field of the pose at `t = step / (steps_between + 1)` with
smoothstep easing. -/
def tween_segment (p0 p1 : Pose) (steps_between : ℕ) : List Pose :=
  (List.range steps_between).map (fun (k : ℕ) =>
    let step : ℚ := (k : ℚ) + 1
    let t : ℚ := step / ((steps_between : ℚ) + 1)
    let te := ease_in_out t
    { x := p0.x + (p1.x - p0.x) * te
      y := p0.y + (p1.y - p0.y) * te
      sx := p0.sx + (p1.sx - p0.sx) * te
      sy := p0.sy + (p1.sy - p0.sy) * te })

/-- The outer loop of `_tween_poses` over consecutive pairs: after the interpolated
frames for the pair `(p0, p1)`, `p1` itself is appended. -/
def tween_aux (p0 : Pose) (rest : List Pose) (steps_between : ℕ) : List Pose :=
  match rest with
  | [] => []
  | p1 :: tail => tween_segment p0 p1 steps_between ++ p1 :: tween_aux p1 tail steps_between

/-- `_tween_poses` from animate_v2.py: empty input yields `[]`; otherwise the
first key pose is emitted once, followed by the tweened pairs. -/
def tween_poses (poses : List Pose) (steps_between : ℕ) : List Pose :=
  match poses with
  | [] => []
  | p :: rest => p :: tween_aux p rest steps_between

/-! ## Parabolic bounce (src/prompt2/animate_v3.py) -/

/-- `_generate_bounce_frames` from animate_v3.py.  Airborne frames are sampled at
`t = i / (air_steps + 1)` for `i in range(1, air_steps + 1)`; the division
`y / peak_height` is guarded by `peak_height > 0`; if `include_squash` three
fixed squash poses at `(x_end, 0)` are appended. -/
def generate_bounce_frames (x_start x_end peak_height : ℚ) (air_steps : ℕ)
    (include_squash : Bool) : List Pose :=
  let airborne := (List.range air_steps).map (fun (i : ℕ) =>
    let t : ℚ := ((i : ℚ) + 1) / ((air_steps : ℚ) + 1)
    let x := x_start + (x_end - x_start) * t
    let y := peak_height * 4 * t * (1 - t)
    let height_ratio := if 0 < peak_height then y / peak_height else 0
    let stretch_strength : ℚ := 35 / 100
    let vertical_scale := 1 + stretch_strength * (1 - height_ratio)
    let horizontal_scale := 1 / vertical_scale
    { x := x, y := y, sx := horizontal_scale, sy := vertical_scale })
  airborne ++ (if include_squash then
    [ { x := x_end, y := 0, sx := 12 / 10, sy := 8 / 10 }
    , { x := x_end, y := 0, sx := 16 / 10, sy := 5 / 10 }
    , { x := x_end, y := 0, sx := 13 / 10, sy := 7 / 10 } ]
  else [])

/-! ## Recursive circle tiling (src/prompt1/one_shape_one_color.py)

`_draw_recursive` draws one circle per call; we collect one `CircleNode` per
drawn circle, recording center, radius and recursion depth. -/

structure CircleNode where
  cx : ℝ
  cy : ℝ
  r : ℝ
  depth : ℕ

/-- `_draw_recursive` from one_shape_one_color.py.  A node is recorded for the
current circle; if `iteration >= max_iterations` the recursion stops, otherwise
the four child circles (tangent to the left, right, bottom and top edges of the
inscribed square) are recursed on with radius `r * shrink_fraction`.  The
`for` loop over the four centers is unrolled into four appended calls. -/
noncomputable def draw_recursive (max_iterations : ℕ) (shrink_fraction : ℝ)
    (cx cy r : ℝ) (iteration : ℕ) : List CircleNode :=
  if h : iteration ≥ max_iterations then [⟨cx, cy, r, iteration⟩]
  else
    let side := r * Real.sqrt 2
    let half_side := side / 2
    let smaller_r := r * shrink_fraction
    ⟨cx, cy, r, iteration⟩ ::
      (draw_recursive max_iterations shrink_fraction (cx - half_side - smaller_r) cy
          smaller_r (iteration + 1) ++
       draw_recursive max_iterations shrink_fraction (cx + half_side + smaller_r) cy
          smaller_r (iteration + 1) ++
       draw_recursive max_iterations shrink_fraction cx (cy - half_side - smaller_r)
          smaller_r (iteration + 1) ++
       draw_recursive max_iterations shrink_fraction cx (cy + half_side + smaller_r)
          smaller_r (iteration + 1))
termination_by max_iterations - iteration
decreasing_by all_goals omega

/-- `_draw_pattern` from one_shape_one_color.py: start the recursion at the
given center with `iteration = 0`.  `color` and `alpha` only style the drawn
patches and do not influence the geometry. -/
noncomputable def draw_pattern (radius : ℝ) (color : String) (alpha : ℝ)
    (max_iterations : ℕ) (shrink_fraction : ℝ) (center_x center_y : ℝ) : List CircleNode :=
  draw_recursive max_iterations shrink_fraction center_x center_y radius 0

/-! ## Boolean-algebra sun compositing (src/prompt7/boolean_algebra.py) -/

/-- Python's `int(...)` on the (always nonnegative) blended channel values:
truncation toward zero. -/
noncomputable def py_int (v : ℝ) : ℤ := if 0 ≤ v then ⌊v⌋ else ⌈v⌉

/-- An RGB color, one integer channel per component (numpy `uint8` values,
always in `0..255` here). -/
abbrev RGB := ℤ × ℤ × ℤ

/-- `blend_colors` from boolean_algebra.py:
`int(c1 * (1 - alpha) + c2 * alpha)` per channel. -/
noncomputable def blend_colors (c1 c2 : RGB) (alpha : ℝ) : RGB :=
  (py_int ((c1.1 : ℝ) * (1 - alpha) + (c2.1 : ℝ) * alpha),
   py_int ((c1.2.1 : ℝ) * (1 - alpha) + (c2.2.1 : ℝ) * alpha),
   py_int ((c1.2.2 : ℝ) * (1 - alpha) + (c2.2.2 : ℝ) * alpha))

/-- The effect of one sun of `create_sun_frame` on one pixel at distance `d`
from the sun's center.  Mirrors the masks of the code: the whole block is
guarded by `current_radius > 0`; `is_center` is `d == 0`;
`is_adjacent_to_center` is `0 < d <= sqrt 2`; the AND mask also requires
`d <= current_radius`; the OR (gradient) mask is the remaining pixels with
`d <= current_radius`, blended at `max 0 (0.5 * (1 - d / max_radius))`.
Both blend branches (`existing == bg` or not) of the code are kept. -/
noncomputable def create_sun_frame_pixel (center_rgb bg_rgb : RGB)
    (max_radius current_radius_factor : ℝ) (d : ℝ) (existing : RGB) : RGB :=
  let current_radius := current_radius_factor * max_radius
  if 0 < current_radius then
    if d = 0 then center_rgb
    else if (0 < d ∧ d ≤ Real.sqrt 2) ∧ d ≤ current_radius then
      (if existing = bg_rgb then blend_colors bg_rgb center_rgb (1 / 2)
       else blend_colors existing center_rgb (1 / 2))
    else if d ≤ current_radius ∧ ¬d = 0 ∧ ¬(0 < d ∧ d ≤ Real.sqrt 2) then
      (let normalized_dist := d / max_radius
       let opacity := max 0 (1 / 2 * (1 - normalized_dist))
       if existing = bg_rgb then blend_colors bg_rgb center_rgb opacity
       else blend_colors existing center_rgb opacity)
    else existing
  else existing

/-- Euclidean pixel-to-center distance, `np.sqrt(dx*dx + dy*dy)`. -/
noncomputable def pixel_distance (x y cx cy : ℝ) : ℝ :=
  Real.sqrt ((x - cx) * (x - cx) + (y - cy) * (y - cy))

/-- The value of the pixel `(x, y)` after `create_sun_frame` has processed all
suns, starting from the background color: the suns are folded over in list
order, each sun blending on top of the value left by the previous ones.
A sun is a `(cx, cy, max_radius)` triple. -/
noncomputable def create_sun_frame_at (center_rgb bg_rgb : RGB)
    (suns : List (ℝ × ℝ × ℝ)) (current_radius_factor : ℝ) (x y : ℝ) : RGB :=
  suns.foldl
    (fun existing sun =>
      create_sun_frame_pixel center_rgb bg_rgb sun.2.2 current_radius_factor
        (pixel_distance x y sun.1 sun.2.1) existing)
    bg_rgb

/-! ## Stroke-skeleton sampling (src/prompt5/genuary_swarm.py) -/

/-- `sample_points_on_segments` from genuary_swarm.py.  For each segment,
`points_per_segment` samples of `np.linspace(0, 1, n)` are mapped along the
segment; if `thickness > 0 and rails > 1 and length > 0`, the points are
replicated on `rails` parallel offsets `np.linspace(-thickness, thickness, rails)`
along the unit normal, otherwise the single centerline is emitted. -/
noncomputable def sample_points_on_segments (segments : List ((ℝ × ℝ) × (ℝ × ℝ)))
    (points_per_segment : ℕ) (thickness : ℝ) (rails : ℕ) : List (ℝ × ℝ) :=
  segments.flatMap (fun seg =>
    let x1 := seg.1.1
    let y1 := seg.1.2
    let x2 := seg.2.1
    let y2 := seg.2.2
    let base_pts := (List.range points_per_segment).map (fun (k : ℕ) =>
      let t : ℝ := (k : ℝ) / ((points_per_segment : ℝ) - 1)
      (x1 + (x2 - x1) * t, y1 + (y2 - y1) * t))
    let dx := x2 - x1
    let dy := y2 - y1
    let length := Real.sqrt (dx * dx + dy * dy)
    if 0 < thickness ∧ 1 < rails ∧ 0 < length then
      let nx := -dy / length
      let ny := dx / length
      ((List.range rails).map (fun (j : ℕ) =>
          -thickness + 2 * thickness * (j : ℝ) / ((rails : ℝ) - 1))).flatMap
        (fun off => base_pts.map (fun p => (p.1 + nx * off, p.2 + ny * off)))
    else base_pts)

/-! ## Swarm generator (src/prompt5/genuary_swarm.py)

The swarm pipeline of `create_swarm_gif` up to (but excluding) rendering:
target sampling, normalization, per-frame particle positions, sizes and
colors.  The claims about it concern determinism only. -/

/-- `make_letter_segments` from genuary_swarm.py: the literal skeleton
segments for G, E, N, U, A, R, Y. -/
noncomputable def make_letter_segments : List ((ℝ × ℝ) × (ℝ × ℝ)) :=
  [ ((0, 0), (0, 5)), ((0, 5), (9 / 2, 5)), ((0, 0), (9 / 2, 0)),
    ((9 / 2, 0), (9 / 2, 27 / 10)), ((11 / 5, 27 / 10), (9 / 2, 27 / 10)),
    ((8, 0), (8, 5)), ((8, 5), (12, 5)), ((8, 5 / 2), (54 / 5, 5 / 2)), ((8, 0), (12, 0)),
    ((16, 0), (16, 5)), ((16, 5), (20, 0)), ((20, 0), (20, 5)),
    ((24, 5), (24, -(1 / 2))), ((24, -(1 / 2)), (28, -(1 / 2))), ((28, -(1 / 2)), (28, 5)),
    ((32, 0), (34, 5)), ((36, 0), (34, 5)), ((33, 3), (35, 3)),
    ((40, 0), (40, 5)), ((40, 5), (87 / 2, 5)), ((87 / 2, 5), (44, 21 / 5)),
    ((44, 21 / 5), (44, 16 / 5)), ((44, 16 / 5), (87 / 2, 5 / 2)),
    ((87 / 2, 5 / 2), (40, 5 / 2)), ((40, 5 / 2), (44, 0)),
    ((48, 5), (50, 7 / 2)), ((52, 5), (50, 7 / 2)), ((50, 7 / 2), (50, 0)) ]

/-- Modelled from the spec: the seeded random generator
(`np.random.default_rng(seed)`) is an external collaborator of the repository;
its internal state sequence is modelled as a pure 64-bit linear-congruential
stream of the seed, so every draw is an explicit function of the seed and of
the index of the draw. -/
def rng_state (seed : ℕ) : ℕ → ℕ
  | 0 => seed % 18446744073709551616
  | n + 1 => (6364136223846793005 * rng_state seed n + 1442695040888963407) %
      18446744073709551616

/-- Modelled from the spec: the `n`-th uniform draw in `[0, 1)` of the seeded
generator. -/
noncomputable def rng_uniform (seed : ℕ) (n : ℕ) : ℝ :=
  (rng_state seed n : ℝ) / 18446744073709551616

/-- Modelled from the spec: the `n`-th standard-normal draw of the seeded
generator (the distribution itself is irrelevant to the determinism claim;
only that the draw is a pure function of seed and index matters). -/
noncomputable def rng_normal (seed : ℕ) (n : ℕ) : ℝ :=
  2 * rng_uniform seed n - 1

/-- `_ease_in_out` from genuary_swarm.py (the real-valued smoothstep). -/
noncomputable def swarm_ease_in_out (t : ℝ) : ℝ := t * t * (3 - 2 * t)

/-- numpy `min` over a nonempty array (0 on the empty list). -/
noncomputable def np_min (l : List ℝ) : ℝ :=
  match l with
  | [] => 0
  | a :: t => t.foldl min a

/-- numpy `max` over a nonempty array (0 on the empty list). -/
noncomputable def np_max (l : List ℝ) : ℝ :=
  match l with
  | [] => 0
  | a :: t => t.foldl max a

/-- `_hsv_to_rgb` from genuary_swarm.py, for one scalar triple: the branch of
`np.choose` selected by `floor(h * 6) mod 6` after reducing `h` modulo 1. -/
noncomputable def hsv_to_rgb (h s v : ℝ) : ℝ × ℝ × ℝ :=
  let hm := h - ⌊h⌋
  let i : ℤ := ⌊hm * 6⌋
  let f := hm * 6 - (i : ℝ)
  let p := v * (1 - s)
  let q := v * (1 - f * s)
  let t := v * (1 - (1 - f) * s)
  match (i % 6).toNat with
  | 0 => (v, t, p)
  | 1 => (q, v, p)
  | 2 => (p, v, t)
  | 3 => (p, q, v)
  | 4 => (t, p, v)
  | _ => (v, p, q)

/-- The data computed by `create_swarm_gif` before any rendering: the
per-frame particle positions, the particle sizes, and the particle colors.
`width`, `height` and `background_color` only style the figure and
`attraction_strength` is never read, exactly as in the code; the geometry is
a function of `n_frames`, `jitter` and the seed.  Random draws are consumed
from the modelled seed stream in program order: `2 n` uniforms for the start
positions, `2 n` normals for the jittered targets, `2 n` normals per frame for
the noise, then the size/hue/saturation/value draws. -/
noncomputable def create_swarm_gif_data (width height : ℕ)
    (background_color : ℝ × ℝ × ℝ) (n_frames : ℕ) (attraction_strength jitter : ℝ)
    (seed : ℕ) : List (List (ℝ × ℝ)) × List ℝ × List (ℝ × ℝ × ℝ) :=
  let segments := make_letter_segments
  let targets_letter_space := sample_points_on_segments segments 60 (18 / 100) 3
  let width_scale : ℝ := 135 / 100
  let xs0 := targets_letter_space.map Prod.fst
  let cx_grid := (np_min xs0 + np_max xs0) / 2
  let widened := targets_letter_space.map
    (fun p => (cx_grid + (p.1 - cx_grid) * width_scale, p.2))
  let min_x := np_min (widened.map Prod.fst)
  let max_x := np_max (widened.map Prod.fst)
  let min_y := np_min (widened.map Prod.snd)
  let max_y := np_max (widened.map Prod.snd)
  let pad_x : ℝ := 8 / 100
  let pad_y : ℝ := 15 / 100
  let targets := widened.map (fun p =>
    (pad_x + (1 - 2 * pad_x) * ((p.1 - min_x) / (max_x - min_x)),
     pad_y + (1 - 2 * pad_y) * ((p.2 - min_y) / (max_y - min_y))))
  let n_particles := targets.length
  let starts := (List.range n_particles).map
    (fun (i : ℕ) => (rng_uniform seed (2 * i), rng_uniform seed (2 * i + 1)))
  let jittered_targets := (targets.zip (List.range n_particles)).map (fun pi =>
    (pi.1.1 + (1 / 100) * rng_normal seed (2 * n_particles + 2 * pi.2),
     pi.1.2 + (1 / 100) * rng_normal seed (2 * n_particles + 2 * pi.2 + 1)))
  let clip01 := fun (v : ℝ) => max 0 (min 1 v)
  let all_positions := (List.range n_frames).map (fun (f : ℕ) =>
    let t : ℝ := if 1 < n_frames then (f : ℝ) / ((n_frames : ℝ) - 1) else 1
    let alpha := swarm_ease_in_out t
    let noise_scale := jitter * (1 - alpha) ^ 3
    (List.range n_particles).map (fun (i : ℕ) =>
      let start := starts.getD i (0, 0)
      let target := jittered_targets.getD i (0, 0)
      let nx := noise_scale * rng_normal seed (4 * n_particles + 2 * n_particles * f + 2 * i)
      let ny := noise_scale *
        rng_normal seed (4 * n_particles + 2 * n_particles * f + 2 * i + 1)
      (clip01 ((1 - alpha) * start.1 + alpha * target.1 + nx),
       clip01 ((1 - alpha) * start.2 + alpha * target.2 + ny))))
  let idx0 := 4 * n_particles + 2 * n_particles * n_frames
  let center_x : ℝ := 1 / 2
  let base_sizes := (List.range n_particles).map
    (fun (i : ℕ) => 5 + 30 * rng_uniform seed (idx0 + i))
  let dist_center := targets.map (fun p => |p.1 - center_x|)
  let size_boost := dist_center.map (fun dc => Real.exp (-((dc / (25 / 100)) ^ 2)))
  let sizes := (base_sizes.zip size_boost).map (fun bs => bs.1 * (7 / 10 + 8 / 10 * bs.2))
  let base_hues := (List.range n_particles).map (fun (i : ℕ) =>
    if 7 / 10 < size_boost.getD i 0 then
      5 / 100 + 1 / 10 * rng_uniform seed (idx0 + 2 * n_particles + i)
    else rng_uniform seed (idx0 + n_particles + i))
  let sats := (List.range n_particles).map
    (fun (i : ℕ) => 6 / 10 + 4 / 10 * rng_uniform seed (idx0 + 3 * n_particles + i))
  let vals := (List.range n_particles).map
    (fun (i : ℕ) => 7 / 10 + 3 / 10 * rng_uniform seed (idx0 + 4 * n_particles + i))
  let colors0 := (List.range n_particles).map (fun (i : ℕ) =>
    hsv_to_rgb (base_hues.getD i 0) (sats.getD i 0) (vals.getD i 0))
  let edge_falloff := dist_center.map (fun dc => Real.exp (-((dc / (33 / 100)) ^ 2)))
  let colors := (colors0.zip edge_falloff).map (fun ce =>
    (ce.1.1 * (4 / 10 + 6 / 10 * ce.2),
     ce.1.2.1 * (4 / 10 + 6 / 10 * ce.2),
     ce.1.2.2 * (4 / 10 + 6 / 10 * ce.2)))
  (all_positions, sizes, colors)

/-! ## Lemmas about the recursive tiling -/

lemma draw_recursive_stop (m : ℕ) (s cx cy r : ℝ) (iteration : ℕ)
    (h : m ≤ iteration) :
    draw_recursive m s cx cy r iteration = [⟨cx, cy, r, iteration⟩] := by
  unfold draw_recursive
  rw [dif_pos h]

lemma draw_recursive_go (m : ℕ) (s cx cy r : ℝ) (iteration : ℕ)
    (h : iteration < m) :
    draw_recursive m s cx cy r iteration =
      ⟨cx, cy, r, iteration⟩ ::
        (draw_recursive m s (cx - r * Real.sqrt 2 / 2 - r * s) cy (r * s) (iteration + 1) ++
         draw_recursive m s (cx + r * Real.sqrt 2 / 2 + r * s) cy (r * s) (iteration + 1) ++
         draw_recursive m s cx (cy - r * Real.sqrt 2 / 2 - r * s) (r * s) (iteration + 1) ++
         draw_recursive m s cx (cy + r * Real.sqrt 2 / 2 + r * s) (r * s) (iteration + 1)) := by
  conv_lhs => rw [draw_recursive]
  rw [dif_neg (by omega)]

lemma draw_recursive_length (m : ℕ) (s : ℝ) :
    ∀ (k : ℕ) (cx cy r : ℝ) (iteration : ℕ), m - iteration = k →
      (draw_recursive m s cx cy r iteration).length = ∑ i ∈ Finset.range (k + 1), 4 ^ i := by
  intro k
  induction k with
  | zero =>
    intro cx cy r iteration hk
    rw [draw_recursive_stop m s cx cy r iteration (by omega)]
    simp
  | succ k ih =>
    intro cx cy r iteration hk
    rw [draw_recursive_go m s cx cy r iteration (by omega)]
    simp only [List.length_cons, List.length_append]
    rw [ih _ _ _ (iteration + 1) (by omega), ih _ _ _ (iteration + 1) (by omega),
      ih _ _ _ (iteration + 1) (by omega), ih _ _ _ (iteration + 1) (by omega)]
    have hsum : ∑ i ∈ Finset.range (k + 1 + 1), (4 : ℕ) ^ i =
        (∑ i ∈ Finset.range (k + 1), 4 ^ i) * 4 + 1 := by
      rw [Finset.sum_range_succ' (fun i => (4 : ℕ) ^ i) (k + 1)]
      simp [pow_succ, Finset.sum_mul]
    rw [hsum]
    omega

lemma draw_recursive_depth_le (m : ℕ) (s : ℝ) :
    ∀ (k : ℕ) (cx cy r : ℝ) (iteration : ℕ), m - iteration = k →
      ∀ n ∈ draw_recursive m s cx cy r iteration, n.depth ≤ iteration + k := by
  intro k
  induction k with
  | zero =>
    intro cx cy r iteration hk n hn
    rw [draw_recursive_stop m s cx cy r iteration (by omega)] at hn
    simp at hn
    simp [hn]
  | succ k ih =>
    intro cx cy r iteration hk n hn
    rw [draw_recursive_go m s cx cy r iteration (by omega)] at hn
    simp only [List.mem_cons, List.mem_append] at hn
    rcases hn with hn | ((hn | hn) | hn) | hn
    · simp [hn]
    all_goals
      have := ih _ _ _ (iteration + 1) (by omega) n hn
      omega

lemma draw_recursive_depth_mem (m : ℕ) (s : ℝ) :
    ∀ (k : ℕ) (cx cy r : ℝ) (iteration : ℕ), m - iteration = k →
      ∃ n ∈ draw_recursive m s cx cy r iteration, n.depth = iteration + k := by
  intro k
  induction k with
  | zero =>
    intro cx cy r iteration hk
    rw [draw_recursive_stop m s cx cy r iteration (by omega)]
    exact ⟨⟨cx, cy, r, iteration⟩, by simp⟩
  | succ k ih =>
    intro cx cy r iteration hk
    rw [draw_recursive_go m s cx cy r iteration (by omega)]
    obtain ⟨n, hn, hd⟩ :=
      ih (cx - r * Real.sqrt 2 / 2 - r * s) cy (r * s) (iteration + 1) (by omega)
    refine ⟨n, ?_, by omega⟩
    simp only [List.mem_cons, List.mem_append]
    exact Or.inr (Or.inl (Or.inl (Or.inl hn)))

/-- C1: for every `max_depth >= 0` and every center, radius, color, alpha and
shrink fraction, the recursive tiling generator returns a tree whose deepest
node has depth exactly `max_depth` (every depth is `≤ max_depth` and depth
`max_depth` is attained) and whose total node count is
`1 + 4 + 4^2 + ... + 4^max_depth`. -/
theorem C1_recursive_tiling_depth_and_count (center_x center_y radius : ℝ)
    (color : String) (alpha shrink_fraction : ℝ) (max_depth : ℕ) :
    (draw_pattern radius color alpha max_depth shrink_fraction center_x center_y).length =
        ∑ i ∈ Finset.range (max_depth + 1), 4 ^ i ∧
    (∀ n ∈ draw_pattern radius color alpha max_depth shrink_fraction center_x center_y,
        n.depth ≤ max_depth) ∧
    (∃ n ∈ draw_pattern radius color alpha max_depth shrink_fraction center_x center_y,
        n.depth = max_depth) := by
  unfold draw_pattern
  refine ⟨?_, ?_, ?_⟩
  · exact draw_recursive_length max_depth shrink_fraction max_depth
      center_x center_y radius 0 (by omega)
  · have h := draw_recursive_depth_le max_depth shrink_fraction max_depth
      center_x center_y radius 0 (by omega)
    simpa using h
  · have h := draw_recursive_depth_mem max_depth shrink_fraction max_depth
      center_x center_y radius 0 (by omega)
    simpa using h

/-- C8: for `shrink_fraction = 0.7` and `radius = 2` (root at the origin,
`max_depth = 2`), the first-generation children are the four circles of radius
`2 * 0.7 = 1.4` centered at offset `half_side + child_radius = sqrt 2 + 1.4`
from the root along exactly one axis, in source order left, right, bottom,
top — in particular the right child is centered at `(sqrt 2 + 1.4, 0)`. -/
theorem C8_first_generation_children (color : String) (alpha : ℝ) :
    ((draw_pattern 2 color alpha 2 (7 / 10) 0 0).filter (fun n => n.depth = 1)) =
      [⟨-(Real.sqrt 2 + 7 / 5), 0, 7 / 5, 1⟩,
       ⟨Real.sqrt 2 + 7 / 5, 0, 7 / 5, 1⟩,
       ⟨0, -(Real.sqrt 2 + 7 / 5), 7 / 5, 1⟩,
       ⟨0, Real.sqrt 2 + 7 / 5, 7 / 5, 1⟩] ∧
    ∀ n ∈ ([⟨-(Real.sqrt 2 + 7 / 5), 0, 7 / 5, 1⟩,
            ⟨Real.sqrt 2 + 7 / 5, 0, 7 / 5, 1⟩,
            ⟨0, -(Real.sqrt 2 + 7 / 5), 7 / 5, 1⟩,
            ⟨0, Real.sqrt 2 + 7 / 5, 7 / 5, 1⟩] : List CircleNode),
      n.r = 2 * (7 / 10) ∧
      Real.sqrt (n.cx ^ 2 + n.cy ^ 2) = Real.sqrt 2 + 7 / 5 ∧
      (n.cx = 0 ∨ n.cy = 0) := by
  have hs2 : (0 : ℝ) ≤ Real.sqrt 2 + 7 / 5 := by positivity
  constructor
  · unfold draw_pattern
    rw [draw_recursive_go 2 (7 / 10) 0 0 2 0 (by omega)]
    rw [draw_recursive_go 2 (7 / 10) _ _ _ 1 (by omega),
      draw_recursive_go 2 (7 / 10) _ _ _ 1 (by omega),
      draw_recursive_go 2 (7 / 10) _ _ _ 1 (by omega),
      draw_recursive_go 2 (7 / 10) _ _ _ 1 (by omega)]
    simp only [draw_recursive_stop 2 (7 / 10) _ _ _ 2 (by omega)]
    simp only [List.filter_append, List.filter_cons, List.filter_nil]
    norm_num
    all_goals ring
  · intro n hn
    have key : ∀ u v : ℝ, u ^ 2 + v ^ 2 = (Real.sqrt 2 + 7 / 5) ^ 2 →
        Real.sqrt (u ^ 2 + v ^ 2) = Real.sqrt 2 + 7 / 5 := by
      intro u v h
      rw [h, Real.sqrt_sq hs2]
    simp only [List.mem_cons, List.not_mem_nil, or_false] at hn
    rcases hn with hn | hn | hn | hn <;> subst hn <;>
      exact ⟨by norm_num, key _ _ (by ring), by norm_num⟩

/-! ## Lemmas and claims about tweening -/

lemma tween_aux_length (steps_between : ℕ) :
    ∀ (rest : List Pose) (p0 : Pose),
      (tween_aux p0 rest steps_between).length = rest.length * (steps_between + 1) := by
  intro rest
  induction rest with
  | nil => intro p0; simp [tween_aux]
  | cons p1 tail ih =>
    intro p0
    simp only [tween_aux, List.length_append, List.length_cons, ih,
      tween_segment, List.length_map, List.length_range]
    ring

/-- C3: `_tween_poses` returns the empty list on empty input; on a nonempty
input of `n` key poses it returns exactly `1 + (n - 1) * (steps_between + 1)`
poses, and the first output element is the first key pose unmodified. -/
theorem C3_tween_length_and_head :
    (∀ steps_between : ℕ, tween_poses [] steps_between = []) ∧
    ∀ (poses : List Pose) (steps_between : ℕ), poses ≠ [] →
      (tween_poses poses steps_between).length =
          1 + (poses.length - 1) * (steps_between + 1) ∧
      (tween_poses poses steps_between).head? = poses.head? := by
  constructor
  · intro _steps
    rfl
  · intro poses steps hne
    match poses with
    | p :: rest =>
      refine ⟨?_, rfl⟩
      show (p :: tween_aux p rest steps).length = _
      simp only [List.length_cons, tween_aux_length, Nat.add_sub_cancel]
      ring

/-- Witness for C3 at a concrete three-pose input with `steps_between = 2`. -/
theorem C3_tween_length_and_head_witness :
    ([⟨0, 0, 1, 1⟩, ⟨1, 2, 3, 4⟩, ⟨2, 2, 2, 2⟩] : List Pose) ≠ [] ∧
    (tween_poses [⟨0, 0, 1, 1⟩, ⟨1, 2, 3, 4⟩, ⟨2, 2, 2, 2⟩] 2).length =
        1 + (([⟨0, 0, 1, 1⟩, ⟨1, 2, 3, 4⟩, ⟨2, 2, 2, 2⟩] : List Pose).length - 1) * (2 + 1) ∧
    (tween_poses [⟨0, 0, 1, 1⟩, ⟨1, 2, 3, 4⟩, ⟨2, 2, 2, 2⟩] 2).head? =
        ([⟨0, 0, 1, 1⟩, ⟨1, 2, 3, 4⟩, ⟨2, 2, 2, 2⟩] : List Pose).head? :=
  ⟨by decide,
   C3_tween_length_and_head.2 [⟨0, 0, 1, 1⟩, ⟨1, 2, 3, 4⟩, ⟨2, 2, 2, 2⟩] 2 (by decide)⟩

/-- Counterexample to C4 as stated: for the key poses `p0 = (0,0)` and
`p1 = (1,0)` (unit scales) with `steps_between = 4`, the 3rd output element is
not the midpoint pose — its parametric position is `t = 2/5`, not `0.5`. -/
theorem C4_counterexample :
    (tween_poses [⟨0, 0, 1, 1⟩, ⟨1, 0, 1, 1⟩] 4)[2]? ≠
      some ⟨(0 + 1) / 2, (0 + 0) / 2, (1 + 1) / 2, (1 + 1) / 2⟩ := by
  simp only [tween_poses, tween_aux, tween_segment]
  norm_num [List.range_succ, ease_in_out, Pose.mk.injEq]

/-- C4 (amended): `_tween_poses` on two key poses with `steps_between = 4`
returns exactly 6 poses, and the 3rd element corresponds to parametric
position `t = 2/5`, where `ease(2/5) = 44/125`, so every field of that pose is
`p0 + (p1 - p0) * (44/125)` — not the midpoint. -/
theorem C4_third_element (p0 p1 : Pose) :
    (tween_poses [p0, p1] 4).length = 6 ∧
    ease_in_out (2 / 5) = 44 / 125 ∧
    (tween_poses [p0, p1] 4)[2]? =
      some ⟨p0.x + (p1.x - p0.x) * (44 / 125), p0.y + (p1.y - p0.y) * (44 / 125),
            p0.sx + (p1.sx - p0.sx) * (44 / 125), p0.sy + (p1.sy - p0.sy) * (44 / 125)⟩ := by
  refine ⟨rfl, by norm_num [ease_in_out], ?_⟩
  simp only [tween_poses, tween_aux, tween_segment]
  norm_num [List.range_succ, ease_in_out, Pose.mk.injEq]

/-! ## Claims about the parabolic bounce -/

/-- C5: with `peak_height = 0` the bounce generator is total (the division by
`peak_height` is special-cased to a zero height ratio) and every airborne
frame has `vertical_scale` exactly `1 + 0.35`. -/
theorem C5_bounce_zero_peak (x_start x_end : ℚ) (air_steps : ℕ) (include_squash : Bool) :
    ∀ f ∈ (generate_bounce_frames x_start x_end 0 air_steps include_squash).take air_steps,
      f.sy = 1 + 35 / 100 := by
  intro f hf
  simp only [generate_bounce_frames] at hf
  rw [List.take_append_of_le_length (by simp)] at hf
  have hf2 := List.mem_of_mem_take hf
  simp only [List.mem_map, List.mem_range] at hf2
  obtain ⟨i, _hi, rfl⟩ := hf2
  norm_num

/-- Witness for C5: `air_steps = 1`, bounce from 0 to 6; the single airborne
frame is `(3, 0)` with scales `(20/27, 27/20)` and `27/20 = 1 + 0.35`. -/
theorem C5_bounce_zero_peak_witness :
    (⟨3, 0, 20 / 27, 27 / 20⟩ : Pose) ∈
        (generate_bounce_frames 0 6 0 1 false).take 1 ∧
    (⟨3, 0, 20 / 27, 27 / 20⟩ : Pose).sy = 1 + 35 / 100 := by
  have hm : (⟨3, 0, 20 / 27, 27 / 20⟩ : Pose) ∈
      (generate_bounce_frames 0 6 0 1 false).take 1 := by
    simp only [generate_bounce_frames]
    norm_num [List.range_succ, Pose.mk.injEq]
  exact ⟨hm, C5_bounce_zero_peak 0 6 1 false _ hm⟩

/-- C10: for every bounce, every airborne frame (the first `air_steps` output
elements) has `horizontal_scale` the exact reciprocal of `vertical_scale`, so
their product is 1 and, since `vertical_scale ≥ 1`, `horizontal_scale ≤ 1`;
the three appended squash poses do not satisfy the product relation. -/
theorem C10_scale_reciprocal (x_start x_end peak_height : ℚ) (air_steps : ℕ)
    (include_squash : Bool) :
    (∀ f ∈ (generate_bounce_frames x_start x_end peak_height air_steps include_squash).take
        air_steps, f.sx * f.sy = 1 ∧ 1 ≤ f.sy ∧ f.sx ≤ 1) ∧
    (∀ f ∈ (generate_bounce_frames x_start x_end peak_height air_steps include_squash).drop
        air_steps, include_squash = true → f.sx * f.sy ≠ 1) := by
  constructor
  · intro f hf
    simp only [generate_bounce_frames] at hf
    rw [List.take_append_of_le_length (by simp)] at hf
    have hf2 := List.mem_of_mem_take hf
    simp only [List.mem_map, List.mem_range] at hf2
    obtain ⟨i, _hi, rfl⟩ := hf2
    dsimp only
    set t : ℚ := ((i : ℚ) + 1) / ((air_steps : ℚ) + 1) with ht
    set hr : ℚ := if 0 < peak_height then
        peak_height * 4 * t * (1 - t) / peak_height else 0 with hhr
    have hr_le_one : hr ≤ 1 := by
      rw [hhr]
      split
      · rename_i hp
        have hne : peak_height ≠ 0 := ne_of_gt hp
        have hcan : peak_height * 4 * t * (1 - t) / peak_height = 4 * t * (1 - t) := by
          field_simp
          ring
        rw [hcan]
        nlinarith [sq_nonneg (2 * t - 1)]
      · norm_num
    have hvs : 1 ≤ 1 + 35 / 100 * (1 - hr) := by linarith
    have hvs0 : (1 + 35 / 100 * (1 - hr)) ≠ 0 := by linarith
    refine ⟨one_div_mul_cancel hvs0, hvs, ?_⟩
    rw [div_le_one (by linarith)]
    exact hvs
  · intro f hf hsq
    subst hsq
    simp only [generate_bounce_frames] at hf
    rw [List.drop_left' (by simp)] at hf
    simp only [List.mem_cons, List.not_mem_nil, or_false, if_pos] at hf
    rcases hf with hf | hf | hf <;> rw [hf] <;> norm_num

/-- Witness for C10: bounce from 0 to 3, `peak_height = 9`, `air_steps = 2`,
with squash; the first airborne frame is `(1, 8)` with scales
`(180/187, 187/180)`, and the first squash pose has `sx * sy = 24/25`. -/
theorem C10_scale_reciprocal_witness :
    ((⟨1, 8, 180 / 187, 187 / 180⟩ : Pose) ∈
        (generate_bounce_frames 0 3 9 2 true).take 2 ∧
      (⟨1, 8, 180 / 187, 187 / 180⟩ : Pose).sx * (⟨1, 8, 180 / 187, 187 / 180⟩ : Pose).sy = 1 ∧
      1 ≤ (⟨1, 8, 180 / 187, 187 / 180⟩ : Pose).sy ∧
      (⟨1, 8, 180 / 187, 187 / 180⟩ : Pose).sx ≤ 1) ∧
    ((⟨3, 0, 12 / 10, 8 / 10⟩ : Pose) ∈
        (generate_bounce_frames 0 3 9 2 true).drop 2 ∧
      (⟨3, 0, 12 / 10, 8 / 10⟩ : Pose).sx * (⟨3, 0, 12 / 10, 8 / 10⟩ : Pose).sy ≠ 1) := by
  have hm1 : (⟨1, 8, 180 / 187, 187 / 180⟩ : Pose) ∈
      (generate_bounce_frames 0 3 9 2 true).take 2 := by
    simp only [generate_bounce_frames]
    norm_num [List.range_succ, Pose.mk.injEq]
  have hm2 : (⟨3, 0, 12 / 10, 8 / 10⟩ : Pose) ∈
      (generate_bounce_frames 0 3 9 2 true).drop 2 := by
    simp only [generate_bounce_frames]
    norm_num [List.range_succ, Pose.mk.injEq]
  exact ⟨⟨hm1, (C10_scale_reciprocal 0 3 9 2 true).1 _ hm1⟩,
    ⟨hm2, (C10_scale_reciprocal 0 3 9 2 true).2 _ hm2 rfl⟩⟩

/-! ## Lemmas about the sun compositor -/

lemma sqrt_two_lt_two : Real.sqrt 2 < 2 := by
  nlinarith [Real.sq_sqrt (show (0 : ℝ) ≤ 2 by norm_num), Real.sqrt_nonneg 2]

lemma one_le_sqrt_two : 1 ≤ Real.sqrt 2 := by
  nlinarith [Real.sq_sqrt (show (0 : ℝ) ≤ 2 by norm_num), Real.sqrt_nonneg 2]

lemma sqrt_eq_of_sq (a b : ℝ) (hb : 0 ≤ b) (h : b ^ 2 = a) : Real.sqrt a = b := by
  rw [← h, Real.sqrt_sq hb]

lemma sun_pixel_center (c bg e : RGB) (maxR g d : ℝ)
    (hg : 0 < g * maxR) (hd : d = 0) :
    create_sun_frame_pixel c bg maxR g d e = c := by
  simp only [create_sun_frame_pixel]
  rw [if_pos hg, if_pos hd]

lemma sun_pixel_adjacent (c bg e : RGB) (maxR g d : ℝ)
    (h0 : 0 < d) (h1 : d ≤ Real.sqrt 2) (h2 : d ≤ g * maxR) :
    create_sun_frame_pixel c bg maxR g d e = blend_colors e c (1 / 2) := by
  simp only [create_sun_frame_pixel]
  rw [if_pos (lt_of_lt_of_le h0 h2), if_neg (ne_of_gt h0),
    if_pos ⟨⟨h0, h1⟩, h2⟩]
  split
  · rename_i hbg
    rw [hbg]
  · rfl

lemma sun_pixel_gradient (c bg e : RGB) (maxR g d : ℝ)
    (h1 : Real.sqrt 2 < d) (h2 : d ≤ g * maxR) :
    create_sun_frame_pixel c bg maxR g d e =
      blend_colors e c (max 0 (1 / 2 * (1 - d / maxR))) := by
  have h0 : 0 < d := lt_of_le_of_lt (Real.sqrt_nonneg 2) h1
  simp only [create_sun_frame_pixel]
  rw [if_pos (lt_of_lt_of_le h0 h2), if_neg (ne_of_gt h0),
    if_neg (by rintro ⟨⟨_, hle⟩, _⟩; exact absurd hle (not_le.mpr h1)),
    if_pos ⟨h2, (ne_of_gt h0), by rintro ⟨_, hle⟩; exact absurd hle (not_le.mpr h1)⟩]
  split
  · rename_i hbg
    rw [hbg]
  · rfl

lemma sun_pixel_outside (c bg e : RGB) (maxR g d : ℝ)
    (h : g * maxR < d) :
    create_sun_frame_pixel c bg maxR g d e = e := by
  simp only [create_sun_frame_pixel]
  by_cases hcr : 0 < g * maxR
  · have h0 : 0 < d := lt_trans hcr h
    rw [if_pos hcr, if_neg (ne_of_gt h0),
      if_neg (by rintro ⟨_, hle⟩; exact absurd hle (not_le.mpr h)),
      if_neg (by rintro ⟨hle, _⟩; exact absurd hle (not_le.mpr h))]
  · rw [if_neg hcr]

/-- C2: classification of the per-pixel effect of one sun at distance `d`:
at `d = 0` (with positive current radius) the pixel becomes exactly the center
color; in `0 < d ≤ sqrt 2` within the current radius it is blended 50% with
the center color; in `sqrt 2 < d` within the current radius it is blended at
opacity `max 0 (0.5 * (1 - d / max_radius))`; beyond the current radius it is
unchanged.  In particular at `growth_factor = 1`: a pixel at `d = 0` returns
the center color and a pixel at `d > max_radius` the untouched base color. -/
theorem C2_radial_pixel_tiers (center_rgb bg_rgb existing : RGB) (max_radius d : ℝ) :
    (∀ growth : ℝ, 0 ≤ growth → growth ≤ 1 →
      (d = 0 → 0 < growth * max_radius →
        create_sun_frame_pixel center_rgb bg_rgb max_radius growth d existing = center_rgb) ∧
      (0 < d → d ≤ Real.sqrt 2 → d ≤ growth * max_radius →
        create_sun_frame_pixel center_rgb bg_rgb max_radius growth d existing =
          blend_colors existing center_rgb (1 / 2)) ∧
      (Real.sqrt 2 < d → d ≤ growth * max_radius →
        create_sun_frame_pixel center_rgb bg_rgb max_radius growth d existing =
          blend_colors existing center_rgb (max 0 (1 / 2 * (1 - d / max_radius)))) ∧
      (growth * max_radius < d →
        create_sun_frame_pixel center_rgb bg_rgb max_radius growth d existing = existing)) ∧
    (0 < max_radius →
      create_sun_frame_pixel center_rgb bg_rgb max_radius 1 0 existing = center_rgb) ∧
    (max_radius < d →
      create_sun_frame_pixel center_rgb bg_rgb max_radius 1 d existing = existing) := by
  refine ⟨fun growth _ _ => ⟨?_, ?_, ?_, ?_⟩, ?_, ?_⟩
  · intro hd hg
    exact sun_pixel_center _ _ _ _ _ _ hg hd
  · intro h0 h1 h2
    exact sun_pixel_adjacent _ _ _ _ _ _ h0 h1 h2
  · intro h1 h2
    exact sun_pixel_gradient _ _ _ _ _ _ h1 h2
  · intro h
    exact sun_pixel_outside _ _ _ _ _ _ h
  · intro hm
    exact sun_pixel_center _ _ _ _ _ _ (by linarith) rfl
  · intro hm
    exact sun_pixel_outside _ _ _ _ _ _ (by linarith)

/-- Witness for C2 with center color `#A33800 = (163, 56, 0)` on a white
background, `max_radius = 10`: one concrete pixel in every tier. -/
theorem C2_radial_pixel_tiers_witness :
    create_sun_frame_pixel (163, 56, 0) (255, 255, 255) 10 (1 / 2) 0 (255, 255, 255) =
        (163, 56, 0) ∧
    create_sun_frame_pixel (163, 56, 0) (255, 255, 255) 10 (1 / 2) 1 (255, 255, 255) =
        blend_colors (255, 255, 255) (163, 56, 0) (1 / 2) ∧
    create_sun_frame_pixel (163, 56, 0) (255, 255, 255) 10 (1 / 2) 3 (255, 255, 255) =
        blend_colors (255, 255, 255) (163, 56, 0) (max 0 (1 / 2 * (1 - 3 / 10))) ∧
    create_sun_frame_pixel (163, 56, 0) (255, 255, 255) 10 (1 / 2) 6 (255, 255, 255) =
        (255, 255, 255) ∧
    create_sun_frame_pixel (163, 56, 0) (255, 255, 255) 10 1 0 (255, 255, 255) =
        (163, 56, 0) ∧
    create_sun_frame_pixel (163, 56, 0) (255, 255, 255) 10 1 11 (255, 255, 255) =
        (255, 255, 255) := by
  refine ⟨((C2_radial_pixel_tiers (163, 56, 0) (255, 255, 255) (255, 255, 255) 10 0).1
      (1 / 2) (by norm_num) (by norm_num)).1 rfl (by norm_num),
    (((C2_radial_pixel_tiers (163, 56, 0) (255, 255, 255) (255, 255, 255) 10 1).1
      (1 / 2) (by norm_num) (by norm_num)).2.1 (by norm_num) one_le_sqrt_two (by norm_num)),
    (((C2_radial_pixel_tiers (163, 56, 0) (255, 255, 255) (255, 255, 255) 10 3).1
      (1 / 2) (by norm_num) (by norm_num)).2.2.1 (by linarith [sqrt_two_lt_two]) (by norm_num)),
    (((C2_radial_pixel_tiers (163, 56, 0) (255, 255, 255) (255, 255, 255) 10 6).1
      (1 / 2) (by norm_num) (by norm_num)).2.2.2 (by norm_num)),
    ((C2_radial_pixel_tiers (163, 56, 0) (255, 255, 255) (255, 255, 255) 10 0).2.1 (by norm_num)),
    ((C2_radial_pixel_tiers (163, 56, 0) (255, 255, 255) (255, 255, 255) 10 11).2.2 (by norm_num))⟩

/-- C6: with two suns the pixel value is the sequential composition of the two
per-sun blends in list order (each subsequent blend bases on the already
blended value), and this is order-dependent: for the white background, center
color `#A33800`, suns at `(3,4)` and `(6,8)` with `max_radius = 20` and
`growth = 1`, the pixel at `(0,0)` differs between the two processing orders
(truncating integer blends do not commute). -/
theorem C6_blend_order_dependent :
    (∀ (center_rgb bg_rgb : RGB) (s1 s2 : ℝ × ℝ × ℝ) (g x y : ℝ),
      create_sun_frame_at center_rgb bg_rgb [s1, s2] g x y =
        create_sun_frame_pixel center_rgb bg_rgb s2.2.2 g (pixel_distance x y s2.1 s2.2.1)
          (create_sun_frame_pixel center_rgb bg_rgb s1.2.2 g (pixel_distance x y s1.1 s1.2.1)
            bg_rgb)) ∧
    create_sun_frame_at (163, 56, 0) (255, 255, 255) [(3, 4, 20), (6, 8, 20)] 1 0 0 ≠
      create_sun_frame_at (163, 56, 0) (255, 255, 255) [(6, 8, 20), (3, 4, 20)] 1 0 0 := by
  constructor
  · intro c bg s1 s2 g x y
    rfl
  · have d1 : pixel_distance 0 0 3 4 = 5 := by
      rw [pixel_distance,
        show ((0 : ℝ) - 3) * ((0 : ℝ) - 3) + ((0 : ℝ) - 4) * ((0 : ℝ) - 4) = 25 by norm_num]
      exact sqrt_eq_of_sq 25 5 (by norm_num) (by norm_num)
    have d2 : pixel_distance 0 0 6 8 = 10 := by
      rw [pixel_distance,
        show ((0 : ℝ) - 6) * ((0 : ℝ) - 6) + ((0 : ℝ) - 8) * ((0 : ℝ) - 8) = 100 by norm_num]
      exact sqrt_eq_of_sq 100 10 (by norm_num) (by norm_num)
    have g1 : Real.sqrt 2 < 5 := by linarith [sqrt_two_lt_two]
    have g2 : Real.sqrt 2 < 10 := by linarith [sqrt_two_lt_two]
    have e1 : create_sun_frame_pixel (163, 56, 0) (255, 255, 255) 20 1
        (pixel_distance 0 0 3 4) (255, 255, 255) = (220, 180, 159) := by
      rw [d1, sun_pixel_gradient _ _ _ _ _ _ g1 (by norm_num),
        show max (0 : ℝ) (1 / 2 * (1 - 5 / 20)) = 3 / 8 by norm_num]
      norm_num [blend_colors, py_int, Prod.ext_iff]
    have e2 : create_sun_frame_pixel (163, 56, 0) (255, 255, 255) 20 1
        (pixel_distance 0 0 6 8) (220, 180, 159) = (205, 149, 119) := by
      rw [d2, sun_pixel_gradient _ _ _ _ _ _ g2 (by norm_num),
        show max (0 : ℝ) (1 / 2 * (1 - 10 / 20)) = 1 / 4 by norm_num]
      norm_num [blend_colors, py_int, Prod.ext_iff]
    have f1 : create_sun_frame_pixel (163, 56, 0) (255, 255, 255) 20 1
        (pixel_distance 0 0 6 8) (255, 255, 255) = (232, 205, 191) := by
      rw [d2, sun_pixel_gradient _ _ _ _ _ _ g2 (by norm_num),
        show max (0 : ℝ) (1 / 2 * (1 - 10 / 20)) = 1 / 4 by norm_num]
      norm_num [blend_colors, py_int, Prod.ext_iff]
    have f2 : create_sun_frame_pixel (163, 56, 0) (255, 255, 255) 20 1
        (pixel_distance 0 0 3 4) (232, 205, 191) = (206, 149, 119) := by
      rw [d1, sun_pixel_gradient _ _ _ _ _ _ g1 (by norm_num),
        show max (0 : ℝ) (1 / 2 * (1 - 5 / 20)) = 3 / 8 by norm_num]
      norm_num [blend_colors, py_int, Prod.ext_iff]
    have hL : create_sun_frame_at (163, 56, 0) (255, 255, 255)
        [(3, 4, 20), (6, 8, 20)] 1 0 0 = (205, 149, 119) := by
      simp only [create_sun_frame_at, List.foldl_cons, List.foldl_nil]
      rw [e1, e2]
    have hR : create_sun_frame_at (163, 56, 0) (255, 255, 255)
        [(6, 8, 20), (3, 4, 20)] 1 0 0 = (206, 149, 119) := by
      simp only [create_sun_frame_at, List.foldl_cons, List.foldl_nil]
      rw [f1, f2]
    rw [hL, hR]
    decide

/-- C7: sampling a single zero-length segment with `points_per_segment = 10`
returns exactly 10 copies of the endpoint, whatever `thickness` and `rails`
are: the `length > 0` conjunct of the multi-rail condition fails, so the
single centerline is emitted, and every interpolated point collapses to the
endpoint. -/
theorem C7_zero_length_segment (x y thickness : ℝ) (rails : ℕ) :
    sample_points_on_segments [((x, y), (x, y))] 10 thickness rails =
      List.replicate 10 (x, y) := by
  have hlen : Real.sqrt ((x - x) * (x - x) + (y - y) * (y - y)) = 0 := by
    rw [show (x - x) * (x - x) + (y - y) * (y - y) = 0 by ring]
    exact Real.sqrt_zero
  simp only [sample_points_on_segments, List.flatMap_cons, List.flatMap_nil, List.append_nil]
  rw [if_neg (by
    rintro ⟨_, _, h3⟩
    rw [hlen] at h3
    exact lt_irrefl 0 h3)]
  rw [List.eq_replicate_iff]
  constructor
  · simp
  · intro p hp
    simp only [List.mem_map, List.mem_range] at hp
    obtain ⟨k, _, rfl⟩ := hp
    simp [sub_self]

/-- C9: the generators are deterministic.  The swarm data (per-frame particle
positions, sizes and colors) is a pure function of the parameters and the
seed — two invocations with identical parameters and identical seed give
identical outputs — and the recursive tiling generator, which draws no random
numbers, likewise returns identical trees on identical parameters. -/
theorem C9_determinism :
    (∀ (width height : ℕ) (bg : ℝ × ℝ × ℝ) (n_frames : ℕ) (att jitter : ℝ)
        (seed width2 height2 : ℕ) (bg2 : ℝ × ℝ × ℝ) (n_frames2 : ℕ)
        (att2 jitter2 : ℝ) (seed2 : ℕ),
      width = width2 → height = height2 → bg = bg2 → n_frames = n_frames2 →
      att = att2 → jitter = jitter2 → seed = seed2 →
      create_swarm_gif_data width height bg n_frames att jitter seed =
        create_swarm_gif_data width2 height2 bg2 n_frames2 att2 jitter2 seed2) ∧
    (∀ (radius : ℝ) (color : String) (alpha : ℝ) (max_iterations : ℕ)
        (shrink_fraction center_x center_y : ℝ),
      draw_pattern radius color alpha max_iterations shrink_fraction center_x center_y =
        draw_pattern radius color alpha max_iterations shrink_fraction center_x center_y) := by
  constructor
  · intro w h bg nf a j s w2 h2 bg2 nf2 a2 j2 s2 hw hh hbg hnf ha hj hs
    subst hw
    subst hh
    subst hbg
    subst hnf
    subst ha
    subst hj
    subst hs
    rfl
  · intro radius color alpha m sf cx cy
    rfl

/-- Witness for C9 at the default parameters of `create_swarm_gif`
(`1600 x 900`, white background, 80 frames, `jitter = 0.008`, seed 42) and at
the grid parameters of the tiling script. -/
theorem C9_determinism_witness :
    create_swarm_gif_data 1600 900 (1, 1, 1) 80 (8 / 100) (8 / 1000) 42 =
      create_swarm_gif_data 1600 900 (1, 1, 1) 80 (8 / 100) (8 / 1000) 42 ∧
    draw_pattern 2 "pink" (2 / 10) 2 (7 / 10) 0 0 = draw_pattern 2 "pink" (2 / 10) 2 (7 / 10) 0 0 :=
  ⟨C9_determinism.1 1600 900 (1, 1, 1) 80 (8 / 100) (8 / 1000) 42
      1600 900 (1, 1, 1) 80 (8 / 100) (8 / 1000) 42 rfl rfl rfl rfl rfl rfl rfl,
   C9_determinism.2 2 "pink" (2 / 10) 2 (7 / 10) 0 0⟩

end Genuary
